import Mathlib

/-!
Shallow embedding of `src/server.js` (the flashrev call-relay server).

The per-connection websocket handler is modeled as a step function
`step : Conn → InEvent → Env → Conn × List Effect` over the mutable fields the
code keeps on the `ws` object.  Inbound events are the client's websocket
frames, the Deepgram sockets' `open`/`message` callbacks, and the client
socket closing.  Outbound actions (replies to the client, broadcasts to the
hub, sends/closes on the Deepgram sockets, and the external Gemini request)
are recorded as an ordered effect list.  `crypto.randomUUID()` is modeled as
a fresh-counter supply (`nextUuid`), `Date.now()` and the Gemini round-trip
outcome are environment inputs, and the `await` inside the `agent_stop`
branch is modeled atomically.  The manager fan-out `broadcast` (lines 30-37)
is modeled separately as `broadcastRun` over the list of connected clients.
-/

namespace FlashRev

/-- Audio source tag: the "mic" or "tab" channel of one call. -/
inductive Source
  | mic
  | tab
deriving DecidableEq, Repr

/-- Client role from the USERS table. -/
inductive Role
  | agent
  | manager
deriving DecidableEq, Repr

/-- WebSocket readyState as used by the code (ws library):
CONNECTING / OPEN / CLOSING / CLOSED. -/
inductive RState
  | connecting
  | opened
  | closing
  | closed
deriving DecidableEq, Repr

/-- USERS table (src/server.js lines 16-20): username to (password, role). -/
def USERS : String → Option (String × Role)
  | "user1" => some ("password1", Role.agent)
  | "user2" => some ("password2", Role.agent)
  | "manager" => some ("manager123", Role.manager)
  | _ => none

/-- Whitespace for JS String.prototype.trim: space, tab, LF, CR, VT, FF
(the characters that can occur in this development). -/
def isJsWS (c : Char) : Bool :=
  c = ' ' || c = '\t' || c = '\n' || c = '\r' || c = Char.ofNat 11 || c = Char.ofNat 12

/-- Drop leading and trailing whitespace from a character list. -/
def trimChars (l : List Char) : List Char :=
  ((l.dropWhile isJsWS).reverse.dropWhile isJsWS).reverse

/-- Model of JS String.prototype.trim. -/
def jsTrim (s : String) : String := String.mk (trimChars s.data)

/-- Outcome of the external Gemini round trip as observed by
summarizeWithGemini (src/server.js lines 55-88): either the fetch /
res.json() pair throws (transport failure), or the parsed body carries a
truthy `error` field, or it parses and the first candidate's content.parts
is the given list of text fields (a missing candidate yields the empty
list; a part with a missing or empty text field is modeled as ""). -/
inductive GeminiOutcome
  | transportFailure
  | providerError (msg : String)
  | ok (parts : List String)
deriving DecidableEq, Repr

/-- parts.find(p => p.text): the first part whose text field is truthy. -/
def findTextPart (parts : List String) : Option String :=
  parts.find? (fun p => p ≠ "")

/-- summarizeWithGemini (src/server.js lines 40-89), with the external round
trip supplied as a `GeminiOutcome`.  Total: every path returns a string. -/
def summarizeWithGemini (transcriptText : String) (o : GeminiOutcome) : String :=
  if jsTrim transcriptText = "" then "No conversation detected."
  else
    match o with
    | GeminiOutcome.transportFailure => "Summary generation failed."
    | GeminiOutcome.providerError m => "Gemini error: " ++ m
    | GeminiOutcome.ok parts => (findTextPart parts).getD "Summary text missing."

/-- Whether summarizeWithGemini reaches the external fetch: exactly when the
empty-input short-circuit (line 41) does not fire. -/
def geminiInvoked (transcriptText : String) : Bool :=
  !(jsTrim transcriptText = "")

/-- summary.replace(/\n/g, "<br>") (src/server.js line 263). -/
def nlToBr (s : String) : String :=
  String.join (s.data.map (fun c => if c = '\n' then "<br>" else String.singleton c))

/-- Lines 241-250: the two source transcripts joined with " " and wrapped in
the fixed section-header template, then trimmed, as handed to the
summarizer. -/
def combinedTranscript (micT tabT : List String) : String :=
  let micText := String.intercalate " " micT
  let tabText := String.intercalate " " tabT
  jsTrim ("\nAGENT SPEECH:\n" ++
    (if micText = "" then "No agent speech detected." else micText) ++
    "\n\nSYSTEM / TAB AUDIO:\n" ++
    (if tabText = "" then "No system audio detected." else tabText) ++
    "\n      ")

/-- The two per-source transcript stores (ws.transcripts, lines 151-154). -/
structure Transcripts where
  mic : List String
  tab : List String
deriving DecidableEq, Repr

/-- One Deepgram socket as held by the server: the call id captured by
createDeepgramSocket's closures, and the socket's readyState. -/
structure DG where
  callId : Nat
  ready : RState
deriving DecidableEq, Repr

/-- The mutable per-connection fields the code keeps on `ws`
(src/server.js lines 140-154), plus the fresh-uuid supply that models
crypto.randomUUID(). -/
structure Conn where
  isAuthenticated : Bool
  username : Option String
  role : Option Role
  callActive : Bool
  callId : Option Nat
  dgMic : Option DG
  dgTab : Option DG
  lastBinaryType : Option Source
  transcripts : Transcripts
  nextUuid : Nat
deriving DecidableEq, Repr

/-- Initial per-connection state (lines 140-154). -/
def conn0 : Conn :=
  { isAuthenticated := false, username := none, role := none,
    callActive := false, callId := none, dgMic := none, dgTab := none,
    lastBinaryType := none, transcripts := ⟨[], []⟩, nextUuid := 0 }

/-- A client text frame that parses as JSON, abstracted to the fields the
handler reads: the `type` tag and, for auth, username and password.  A
parsed value with an unrecognized or missing type is `other`. -/
inductive Msg
  | auth (username password : String)
  | agentStart
  | agentStop
  | audioMic
  | audioTab
  | other
deriving DecidableEq, Repr

/-- An inbound frame on the client socket.  JSON.parse success is the only
discriminator the handler has (lines 159-183), so a binary frame and a
non-JSON text frame are the same constructor: both carry raw bytes. -/
inductive Frame
  | binary (payload : List Nat)
  | msg (m : Msg)
deriving DecidableEq, Repr

/-- A provider transcription event as read by dg.onmessage (lines 103-125):
transcript is channel.alternatives[0].transcript (none when the alternative
is missing; some "" when present but empty, which is falsy), isFinal is
is_final. -/
structure DgData where
  transcript : Option String
  isFinal : Bool
deriving DecidableEq, Repr

/-- Inbound events delivered to one connection's handlers. -/
inductive InEvent
  | frame (f : Frame)
  | dgOpen (src : Source)
  | dgMessage (src : Source) (d : Option DgData)
  | close
deriving DecidableEq, Repr

/-- Events handed to broadcast(...) (hub fan-out). -/
inductive BEvent
  | agentOnline (agent : Option String)
  | agentJoin (agent : Option String) (callId : Nat) (startTime : Nat)
  | transcript (callId : Nat) (source : Source) (text : String) (final : Bool)
  | summary (callId : Option Nat) (text : String)
  | agentOffline (agent : Option String)
deriving DecidableEq, Repr

/-- Direct replies sent back on the client's own socket. -/
inductive Reply
  | authFailed
  | authSuccess (username : String) (role : Role)
deriving DecidableEq, Repr

/-- Observable actions of one handler run, in program order. -/
inductive Effect
  | reply (r : Reply)
  | bcast (e : BEvent)
  | dgSend (src : Source) (payload : List Nat)
  | dgClose (src : Source)
  | geminiRequest (text : String)
deriving DecidableEq, Repr

/-- Environment inputs consumed during one handler run: the Gemini
round-trip outcome (read only by agent_stop) and Date.now() (read only by
agent_start). -/
structure Env where
  gemini : GeminiOutcome
  now : Nat
deriving Repr

/-- Lines 163-182: the branch for binary frames (and for any text frame
that fails JSON.parse). -/
def onBinary (st : Conn) (b : List Nat) : Conn × List Effect :=
  if st.callActive then
    let micSends :=
      match st.lastBinaryType, st.dgMic with
      | some Source.mic, some d =>
          if d.ready = RState.opened then [Effect.dgSend Source.mic b] else []
      | _, _ => []
    let tabSends :=
      match st.lastBinaryType, st.dgTab with
      | some Source.tab, some d =>
          if d.ready = RState.opened then [Effect.dgSend Source.tab b] else []
      | _, _ => []
    (st, micSends ++ tabSends)
  else (st, [])

/-- Lines 186-209: the auth branch. -/
def onAuth (st : Conn) (u p : String) : Conn × List Effect :=
  match USERS u with
  | none => (st, [Effect.reply Reply.authFailed])
  | some (pw, r) =>
    if pw ≠ p then (st, [Effect.reply Reply.authFailed])
    else
      ({ st with isAuthenticated := true, username := some u, role := some r },
       [Effect.reply (Reply.authSuccess u r)] ++
         (if r = Role.agent then [Effect.bcast (BEvent.agentOnline (some u))] else []))

/-- Lines 214-232: the agent_start branch (reached only when authenticated;
note there is no check of callActive). -/
def onAgentStart (st : Conn) (now : Nat) : Conn × List Effect :=
  if st.role = some Role.agent then
    let id := st.nextUuid
    ({ st with callId := some id, callActive := true,
               transcripts := ⟨[], []⟩,
               dgMic := some ⟨id, RState.connecting⟩,
               dgTab := some ⟨id, RState.connecting⟩,
               nextUuid := st.nextUuid + 1 },
     [Effect.bcast (BEvent.agentJoin st.username id now)])
  else (st, [])

/-- Lines 235-271: the agent_stop branch.  The try/catch of lines 252-258
(default "Summary could not be generated.") can never fire, because
summarizeWithGemini returns on every path, so the broadcast summary is
always the summarizer's result. -/
def onAgentStop (st : Conn) (g : GeminiOutcome) : Conn × List Effect :=
  if st.callActive then
    let text := combinedTranscript st.transcripts.mic st.transcripts.tab
    let summary := summarizeWithGemini text g
    ({ st with callActive := false, dgMic := none, dgTab := none },
     (match st.dgMic with
      | some _ => [Effect.dgClose Source.mic]
      | none => []) ++
     (match st.dgTab with
      | some _ => [Effect.dgClose Source.tab]
      | none => []) ++
     (if geminiInvoked text then [Effect.geminiRequest text] else []) ++
     [Effect.bcast (BEvent.summary st.callId (nlToBr summary))])
  else (st, [])

/-- The JSON branch of ws.on("message") (lines 186-283): the auth branch
runs first; every later branch is behind the authentication gate of
line 211. -/
def onMsg (st : Conn) (m : Msg) (env : Env) : Conn × List Effect :=
  match m with
  | Msg.auth u p => onAuth st u p
  | m' =>
    if st.isAuthenticated then
      match m' with
      | Msg.agentStart => onAgentStart st env.now
      | Msg.agentStop => onAgentStop st env.gemini
      | Msg.audioMic => ({ st with lastBinaryType := some Source.mic }, [])
      | Msg.audioTab => ({ st with lastBinaryType := some Source.tab }, [])
      | _ => (st, [])
    else (st, [])

/-- The socket currently held for a source. -/
def dgOf (st : Conn) (src : Source) : Option DG :=
  match src with
  | Source.mic => st.dgMic
  | Source.tab => st.dgTab

/-- The ws library moving a Deepgram socket to OPEN; dg.onopen itself only
logs (lines 99-101). -/
def onDgOpen (st : Conn) (src : Source) : Conn × List Effect :=
  match src with
  | Source.mic =>
    match st.dgMic with
    | some d => ({ st with dgMic := some { d with ready := RState.opened } }, [])
    | none => (st, [])
  | Source.tab =>
    match st.dgTab with
    | some d => ({ st with dgTab := some { d with ready := RState.opened } }, [])
    | none => (st, [])

/-- Append one finalized utterance to the store of its source (line 115). -/
def pushTranscript (ts : Transcripts) (src : Source) (t : String) : Transcripts :=
  match src with
  | Source.mic => { ts with mic := ts.mic ++ [t] }
  | Source.tab => { ts with tab := ts.tab ++ [t] }

/-- dg.onmessage (lines 103-125) for the currently held socket of `src`;
`none` for the event data models a msg.data that fails JSON.parse. -/
def onDgMessage (st : Conn) (src : Source) (d : Option DgData) : Conn × List Effect :=
  match dgOf st src with
  | none => (st, [])
  | some dg =>
    match d with
    | none => (st, [])
    | some ev =>
      match ev.transcript with
      | none => (st, [])
      | some t =>
        if t = "" then (st, [])
        else
          let st' :=
            if ev.isFinal then { st with transcripts := pushTranscript st.transcripts src t }
            else st
          (st', [Effect.bcast (BEvent.transcript dg.callId src t ev.isFinal)])

/-- ws.on("close") (lines 285-292): presence broadcast and adapter closes
for agents; no summary is computed here. -/
def onClose (st : Conn) : Conn × List Effect :=
  if st.role = some Role.agent then
    (st,
     [Effect.bcast (BEvent.agentOffline st.username)] ++
     (match st.dgMic with
      | some _ => [Effect.dgClose Source.mic]
      | none => []) ++
     (match st.dgTab with
      | some _ => [Effect.dgClose Source.tab]
      | none => []))
  else (st, [])

/-- One handler dispatch for one inbound event. -/
def step (st : Conn) (ev : InEvent) (env : Env) : Conn × List Effect :=
  match ev with
  | InEvent.frame (Frame.binary b) => onBinary st b
  | InEvent.frame (Frame.msg m) => onMsg st m env
  | InEvent.dgOpen src => onDgOpen st src
  | InEvent.dgMessage src d => onDgMessage st src d
  | InEvent.close => onClose st

/-- Run a whole event trace, accumulating effects in order. -/
def run (st : Conn) (evs : List (InEvent × Env)) : Conn × List Effect :=
  evs.foldl (fun acc p =>
    let r := step acc.1 p.1 p.2
    (r.1, acc.2 ++ r.2)) (st, [])

/-- Recognize a broadcast summary event among the effects. -/
def isSummaryEffect : Effect → Bool
  | Effect.bcast (BEvent.summary _ _) => true
  | _ => false

/-- Number of broadcast summary events in an effect list. -/
def summaryCount (effs : List Effect) : Nat := effs.countP isSummaryEffect

/-- The payloads forwarded downstream to one source's socket, in order. -/
def dgSendsTo (src : Source) (effs : List Effect) : List (List Nat) :=
  effs.filterMap (fun e =>
    match e with
    | Effect.dgSend s b => if s = src then some b else none
    | _ => none)

/-- The transcript texts sent to the external summarization service. -/
def geminiTexts (effs : List Effect) : List String :=
  effs.filterMap (fun e =>
    match e with
    | Effect.geminiRequest t => some t
    | _ => none)

/-- The summary texts broadcast to the hub. -/
def summariesOf (effs : List Effect) : List String :=
  effs.filterMap (fun e =>
    match e with
    | Effect.bcast (BEvent.summary _ s) => some s
    | _ => none)

/-- Recognize an adapter close among the effects. -/
def isDgClose : Effect → Bool
  | Effect.dgClose _ => true
  | _ => false

/-- Recognize a session-start (agent_join) broadcast among the effects. -/
def isAgentJoin : Effect → Bool
  | Effect.bcast (BEvent.agentJoin _ _ _) => true
  | _ => false

/-- A socket in wss.clients as seen by broadcast (lines 30-37): readyState,
role, and whether this recipient's send would fail.  With the ws library a
send on an OPEN socket surfaces failure asynchronously, never as a
synchronous throw inside the forEach callback. -/
structure Client where
  readyState : RState
  role : Option Role
  sendFails : Bool
deriving DecidableEq, Repr

/-- Model of JSON.stringify(msg) inside broadcast: a deterministic
rendering.  Its exact shape is irrelevant to the claims, which use only
that it is computed once per broadcast call. -/
def serialize : BEvent → String
  | BEvent.agentOnline a => "agent_online " ++ a.getD "null"
  | BEvent.agentJoin a c t =>
      "agent_join " ++ a.getD "null" ++ " " ++ toString c ++ " " ++ toString t
  | BEvent.transcript c s t f =>
      "transcript " ++ toString c ++ " " ++
        (match s with | Source.mic => "mic" | Source.tab => "tab") ++ " " ++ t ++
        " " ++ toString f
  | BEvent.summary c s =>
      "summary " ++ (match c with | some n => toString n | none => "null") ++ " " ++ s
  | BEvent.agentOffline a => "agent_offline " ++ a.getD "null"

/-- broadcast (lines 30-37): serialize once, then send to every client
whose readyState is OPEN and whose role is "manager".  Per client the
outcome is none when it was skipped, and some (data, ok) when a send was
attempted, where ok records whether that recipient's send succeeded; the
forEach loop is never interrupted by one recipient's failure. -/
def broadcastRun (clients : List Client) (m : BEvent) : List (Option (String × Bool)) :=
  let data := serialize m
  clients.map (fun c =>
    if c.readyState = RState.opened ∧ c.role = some Role.manager
    then some (data, !c.sendFails) else none)

/-- Default environment for concrete traces. -/
def env0 : Env := ⟨GeminiOutcome.ok ["AI summary line"], 1000⟩

/-! ## Helper lemmas -/

/-- A non-whitespace element survives dropWhile. -/
theorem mem_dropWhile_of_not_ws {c : Char} {l : List Char}
    (h : c ∈ l) (hc : isJsWS c = false) : c ∈ l.dropWhile isJsWS := by
  have hsplit : c ∈ List.takeWhile isJsWS l ++ List.dropWhile isJsWS l := by
    rw [List.takeWhile_append_dropWhile]; exact h
  rcases List.mem_append.mp hsplit with h1 | h2
  · exact absurd (List.mem_takeWhile_imp h1) (by simp [hc])
  · exact h2

/-- A non-whitespace element survives trimming. -/
theorem mem_trimChars {c : Char} {l : List Char}
    (h : c ∈ l) (hc : isJsWS c = false) : c ∈ trimChars l := by
  unfold trimChars
  rw [List.mem_reverse]
  exact mem_dropWhile_of_not_ws (List.mem_reverse.mpr (mem_dropWhile_of_not_ws h hc)) hc

/-- The combined transcript always contains the letter A of its fixed
"AGENT SPEECH:" header. -/
theorem combinedTranscript_has_A (micT tabT : List String) :
    'A' ∈ (combinedTranscript micT tabT).data := by
  have h : 'A' ∈ ("\nAGENT SPEECH:\n" ++
      (if String.intercalate " " micT = "" then "No agent speech detected."
       else String.intercalate " " micT) ++
      "\n\nSYSTEM / TAB AUDIO:\n" ++
      (if String.intercalate " " tabT = "" then "No system audio detected."
       else String.intercalate " " tabT) ++
      "\n      ").data := by
    simp only [String.data_append, List.mem_append]
    exact Or.inl (Or.inl (Or.inl (Or.inl (by decide))))
  exact mem_trimChars h (by decide)

/-- The combined transcript never trims to the empty string: it always
carries the fixed section headers (and placeholders). -/
theorem jsTrim_combined_ne (micT tabT : List String) :
    jsTrim (combinedTranscript micT tabT) ≠ "" := by
  have h2 : 'A' ∈ trimChars (combinedTranscript micT tabT).data :=
    mem_trimChars (combinedTranscript_has_A micT tabT) (by decide)
  intro h
  have h3 : trimChars (combinedTranscript micT tabT).data = [] := by
    have h4 := congrArg String.data h
    simpa [jsTrim] using h4
  rw [h3] at h2
  exact absurd h2 (List.not_mem_nil 'A')

/-- The empty-input short-circuit of summarizeWithGemini never fires on an
end-of-call transcript: the external request is always issued. -/
theorem geminiInvoked_combined (micT tabT : List String) :
    geminiInvoked (combinedTranscript micT tabT) = true := by
  simp [geminiInvoked, jsTrim_combined_ne micT tabT]

/-- Whether the currently held socket of a source is OPEN. -/
def readyOpen (st : Conn) (src : Source) : Bool :=
  match dgOf st src with
  | some d => d.ready = RState.opened
  | none => false

/-- The effect list the binary branch produces, as a single conditional:
the frame goes to the tagged source's socket exactly when the call is
active and that socket is OPEN. -/
def binOut (st : Conn) (b : List Nat) : List Effect :=
  if st.callActive = true ∧ st.lastBinaryType = some Source.mic ∧
      readyOpen st Source.mic = true
  then [Effect.dgSend Source.mic b]
  else if st.callActive = true ∧ st.lastBinaryType = some Source.tab ∧
      readyOpen st Source.tab = true
  then [Effect.dgSend Source.tab b]
  else []

/-- Characterization of the binary branch: state unchanged, effects as in
`binOut` (the two sequential guards of lines 166-180 are mutually
exclusive, since only one source can be the current tag). -/
theorem onBinary_eq (st : Conn) (b : List Nat) :
    onBinary st b = (st, binOut st b) := by
  rcases st with ⟨auth, un, rl, ca, cid, dm, dt, lbt, ts, nu⟩
  unfold onBinary binOut readyOpen dgOf
  cases ca
  · simp
  · rcases lbt with _ | s
    · simp
    · cases s <;> rcases dm with _ | d <;> rcases dt with _ | e <;>
        simp <;> split_ifs <;> simp_all

/-- Dispatch equations (definitional). -/
theorem step_binary (st : Conn) (b : List Nat) (env : Env) :
    step st (InEvent.frame (Frame.binary b)) env = onBinary st b := rfl

theorem step_msg (st : Conn) (m : Msg) (env : Env) :
    step st (InEvent.frame (Frame.msg m)) env = onMsg st m env := rfl

theorem step_dgOpen (st : Conn) (src : Source) (env : Env) :
    step st (InEvent.dgOpen src) env = onDgOpen st src := rfl

theorem step_dgMessage (st : Conn) (src : Source) (d : Option DgData) (env : Env) :
    step st (InEvent.dgMessage src d) env = onDgMessage st src d := rfl

theorem step_close (st : Conn) (env : Env) :
    step st InEvent.close env = onClose st := rfl

theorem onMsg_auth (st : Conn) (u p : String) (env : Env) :
    onMsg st (Msg.auth u p) env = onAuth st u p := rfl

theorem onMsg_agentStart (st : Conn) (env : Env) :
    onMsg st Msg.agentStart env =
      if st.isAuthenticated then onAgentStart st env.now else (st, []) := rfl

theorem onMsg_agentStop (st : Conn) (env : Env) :
    onMsg st Msg.agentStop env =
      if st.isAuthenticated then onAgentStop st env.gemini else (st, []) := rfl

theorem onMsg_audioMic (st : Conn) (env : Env) :
    onMsg st Msg.audioMic env =
      if st.isAuthenticated
      then ({ st with lastBinaryType := some Source.mic }, []) else (st, []) := rfl

theorem onMsg_audioTab (st : Conn) (env : Env) :
    onMsg st Msg.audioTab env =
      if st.isAuthenticated
      then ({ st with lastBinaryType := some Source.tab }, []) else (st, []) := rfl

theorem onMsg_other (st : Conn) (env : Env) :
    onMsg st Msg.other env = (st, []) := by
  by_cases h : st.isAuthenticated = true <;> simp [onMsg, h]

/-- The accepted agent_start step, spelled out. -/
theorem onAgentStart_pos (st : Conn) (now : Nat) (h : st.role = some Role.agent) :
    onAgentStart st now =
      ({ st with callId := some st.nextUuid, callActive := true,
                 transcripts := ⟨[], []⟩,
                 dgMic := some ⟨st.nextUuid, RState.connecting⟩,
                 dgTab := some ⟨st.nextUuid, RState.connecting⟩,
                 nextUuid := st.nextUuid + 1 },
       [Effect.bcast (BEvent.agentJoin st.username st.nextUuid now)]) := by
  unfold onAgentStart
  rw [if_pos h]

theorem onAgentStart_neg (st : Conn) (now : Nat) (h : ¬ st.role = some Role.agent) :
    onAgentStart st now = (st, []) := by
  unfold onAgentStart
  rw [if_neg h]

/-- The accepted agent_stop step, spelled out; the Gemini request fires
unconditionally because the templated transcript never trims empty. -/
theorem onAgentStop_pos (st : Conn) (g : GeminiOutcome) (h : st.callActive = true) :
    onAgentStop st g =
      ({ st with callActive := false, dgMic := none, dgTab := none },
       (match st.dgMic with
        | some _ => [Effect.dgClose Source.mic]
        | none => []) ++
       (match st.dgTab with
        | some _ => [Effect.dgClose Source.tab]
        | none => []) ++
       [Effect.geminiRequest (combinedTranscript st.transcripts.mic st.transcripts.tab)] ++
       [Effect.bcast (BEvent.summary st.callId (nlToBr (summarizeWithGemini
          (combinedTranscript st.transcripts.mic st.transcripts.tab) g)))]) := by
  unfold onAgentStop
  rw [if_pos h]
  simp only [geminiInvoked_combined, if_true]

theorem onAgentStop_neg (st : Conn) (g : GeminiOutcome) (h : ¬ st.callActive = true) :
    onAgentStop st g = (st, []) := by
  unfold onAgentStop
  rw [if_neg h]

theorem summaryCount_append (a b : List Effect) :
    summaryCount (a ++ b) = summaryCount a + summaryCount b :=
  List.countP_append _ _ _

/-! ## Claims -/

/-- C1 counterexample trace: authenticate as agent, start a call, then the
client socket closes while the call is still active. -/
def c1Trace : List (InEvent × Env) :=
  [(InEvent.frame (Frame.msg (Msg.auth "user1" "password1")), env0),
   (InEvent.frame (Frame.msg Msg.agentStart), env0),
   (InEvent.close, env0)]

/-- C1 counterexample: a call completed by client disconnect while in a call
emits no broadcast "summary" event at all — the close handler only emits
presence and adapter closes — refuting "the broadcast summary event is
emitted exactly once per completed call, whether completion is via an
explicit agent_stop message or via the client disconnecting while in a
call". -/
theorem c1_counterexample :
    (run conn0 c1Trace).1.callActive = true ∧
    summaryCount (run conn0 c1Trace).2 = 0 := by decide

/-- C1 amended: a broadcast "summary" event is emitted by a handler step
exactly when that step processes an agent_stop message on an authenticated
connection whose call is active (so exactly once per explicitly stopped
call, since the accepted stop clears callActive); a disconnect (close)
event never emits one. -/
theorem c1_amended (st : Conn) (ev : InEvent) (env : Env) :
    (summaryCount (step st ev env).2 =
      if ev = InEvent.frame (Frame.msg Msg.agentStop) ∧
          st.isAuthenticated = true ∧ st.callActive = true then 1 else 0) ∧
    ((step st (InEvent.frame (Frame.msg Msg.agentStop)) env).1.callActive =
      if st.isAuthenticated = true ∧ st.callActive = true then false
      else st.callActive) := by
  have hstop : ∀ g : GeminiOutcome, summaryCount (onAgentStop st g).2 =
      if st.callActive = true then 1 else 0 := by
    intro g
    by_cases h : st.callActive = true
    · rw [onAgentStop_pos st g h, if_pos h]
      simp only [summaryCount_append]
      rcases st.dgMic with _ | d <;> rcases st.dgTab with _ | e <;> rfl
    · rw [onAgentStop_neg st g h, if_neg h]
      rfl
  constructor
  · cases ev with
    | frame f =>
      cases f with
      | binary b =>
        rw [if_neg (by simp), step_binary, onBinary_eq]
        show summaryCount (binOut st b) = 0
        unfold binOut
        split_ifs <;> rfl
      | msg m =>
        cases m with
        | auth u p =>
          rw [if_neg (by simp), step_msg, onMsg_auth]
          unfold onAuth
          cases h : USERS u with
          | none => rfl
          | some pr =>
            obtain ⟨pw, r⟩ := pr
            dsimp only
            by_cases hp : pw ≠ p
            · rw [if_pos hp]
              rfl
            · rw [if_neg hp]
              cases r <;> rfl
        | agentStart =>
          rw [if_neg (by simp), step_msg, onMsg_agentStart]
          by_cases h : st.isAuthenticated = true
          · rw [if_pos h]
            by_cases hr : st.role = some Role.agent
            · rw [onAgentStart_pos st env.now hr]
              rfl
            · rw [onAgentStart_neg st env.now hr]
              rfl
          · rw [if_neg h]
            rfl
        | agentStop =>
          rw [step_msg, onMsg_agentStop]
          by_cases h : st.isAuthenticated = true
          · rw [if_pos h, hstop env.gemini]
            by_cases h2 : st.callActive = true <;> simp [h, h2]
          · rw [if_neg h, if_neg (by simp [h])]
            rfl
        | audioMic =>
          rw [if_neg (by simp), step_msg, onMsg_audioMic]
          split <;> rfl
        | audioTab =>
          rw [if_neg (by simp), step_msg, onMsg_audioTab]
          split <;> rfl
        | other =>
          rw [if_neg (by simp), step_msg, onMsg_other]
          rfl
    | dgOpen src =>
      rw [if_neg (by simp), step_dgOpen]
      unfold onDgOpen
      cases src
      · rcases st.dgMic with _ | d <;> rfl
      · rcases st.dgTab with _ | d <;> rfl
    | dgMessage src d =>
      rw [if_neg (by simp), step_dgMessage]
      unfold onDgMessage
      rcases hs : dgOf st src with _ | dg
      · rfl
      · rcases d with _ | ev
        · rfl
        · obtain ⟨topt, fin⟩ := ev
          rcases topt with _ | t
          · rfl
          · dsimp only
            by_cases ht : t = ""
            · rw [if_pos ht]
              rfl
            · rw [if_neg ht]
              rfl
    | close =>
      rw [if_neg (by simp), step_close]
      unfold onClose
      split
      · rcases st.dgMic with _ | d <;> rcases st.dgTab with _ | e <;> rfl
      · rfl
  · rw [step_msg, onMsg_agentStop]
    by_cases h : st.isAuthenticated = true
    · rw [if_pos h]
      by_cases h2 : st.callActive = true
      · rw [onAgentStop_pos st env.gemini h2, if_pos ⟨h, h2⟩]
      · rw [onAgentStop_neg st env.gemini h2, if_neg (by tauto)]
    · rw [if_neg h, if_neg (by tauto)]


/-- C2 counterexample trace: in a call with source tagged "mic", one frame
is sent while the mic socket is still CONNECTING, then the socket opens and
a second frame is sent. -/
def c2Trace : List (InEvent × Env) :=
  [(InEvent.frame (Frame.msg (Msg.auth "user1" "password1")), env0),
   (InEvent.frame (Frame.msg Msg.agentStart), env0),
   (InEvent.frame (Frame.msg Msg.audioMic), env0),
   (InEvent.frame (Frame.binary [1, 2, 3]), env0),
   (InEvent.dgOpen Source.mic, env0),
   (InEvent.frame (Frame.binary [4]), env0)]

/-- C2 counterexample: the frame [1,2,3], sent for the mic source before the
downstream connection was ready, is never delivered — only the post-open
frame [4] reaches the socket — refuting "every frame is buffered and is
delivered to the downstream connection exactly once ... once the connection
becomes ready; no frame sent before readiness is lost". -/
theorem c2_counterexample :
    dgSendsTo Source.mic (run conn0 c2Trace).2 = [[4]] := by decide

/-- C2 amended: there is no pending-frame buffer.  A binary frame leaves the
connection state unchanged, and it is forwarded — exactly once — to the
tagged source's downstream socket precisely when the call is active and that
socket is already OPEN; a frame sent before readiness produces no effect and
is lost. -/
theorem c2_amended (st : Conn) (b : List Nat) (env : Env) (src : Source) :
    (step st (InEvent.frame (Frame.binary b)) env).1 = st ∧
    dgSendsTo src (step st (InEvent.frame (Frame.binary b)) env).2 =
      (if st.callActive = true ∧ st.lastBinaryType = some src ∧
          readyOpen st src = true
       then [b] else []) := by
  rw [step_binary, onBinary_eq]
  refine ⟨rfl, ?_⟩
  unfold binOut
  cases src <;> split_ifs <;> simp_all [dgSendsTo]

/-- C3 counterexample trace: authenticate, start a call, then send a second
agent_start while the first call is still active. -/
def c3Trace : List (InEvent × Env) :=
  [(InEvent.frame (Frame.msg (Msg.auth "user1" "password1")), env0),
   (InEvent.frame (Frame.msg Msg.agentStart), env0),
   (InEvent.frame (Frame.msg Msg.agentStart), env0)]

/-- C3 counterexample: the second agent_start is accepted while in a call:
it replaces the call identifier (0 becomes 1) and the adapters (fresh
CONNECTING sockets bound to call 1), broadcasts a second session-start
event, and never closes the old adapters — refuting "for every connection
already in a call, a further start-session message does not create a second
Call Session or replace the existing adapters and call identifier". -/
theorem c3_counterexample :
    (run conn0 c3Trace).1.callId = some 1 ∧
    (run conn0 c3Trace).1.dgMic = some ⟨1, RState.connecting⟩ ∧
    (run conn0 c3Trace).2.countP isAgentJoin = 2 ∧
    (run conn0 c3Trace).2.countP isDgClose = 0 := by decide

/-- C3 amended: agent_start is accepted from any authenticated agent
connection regardless of whether a call is already active; it
unconditionally installs a fresh call identifier, empty transcripts, and
fresh adapters (without closing previous ones) and broadcasts the
session-start event. -/
theorem c3_amended (st : Conn) (env : Env)
    (h1 : st.isAuthenticated = true) (h2 : st.role = some Role.agent) :
    step st (InEvent.frame (Frame.msg Msg.agentStart)) env =
      ({ st with callId := some st.nextUuid, callActive := true,
                 transcripts := ⟨[], []⟩,
                 dgMic := some ⟨st.nextUuid, RState.connecting⟩,
                 dgTab := some ⟨st.nextUuid, RState.connecting⟩,
                 nextUuid := st.nextUuid + 1 },
       [Effect.bcast (BEvent.agentJoin st.username st.nextUuid env.now)]) := by
  rw [step_msg, onMsg_agentStart, if_pos h1, onAgentStart_pos st env.now h2]

/-- An authenticated agent connection that is already in call 0. -/
def stInCall : Conn :=
  { isAuthenticated := true, username := some "user1", role := some Role.agent,
    callActive := true, callId := some 0,
    dgMic := some ⟨0, RState.connecting⟩, dgTab := some ⟨0, RState.connecting⟩,
    lastBinaryType := none, transcripts := ⟨[], []⟩, nextUuid := 1 }

/-- Witness for c3_amended: at the concrete in-call state, a further
agent_start is accepted and replaces the call. -/
theorem c3_amended_witness :
    step stInCall (InEvent.frame (Frame.msg Msg.agentStart)) env0 =
      ({ isAuthenticated := true, username := some "user1", role := some Role.agent,
         callActive := true, callId := some 1,
         dgMic := some ⟨1, RState.connecting⟩, dgTab := some ⟨1, RState.connecting⟩,
         lastBinaryType := none, transcripts := ⟨[], []⟩, nextUuid := 2 },
       [Effect.bcast (BEvent.agentJoin (some "user1") 1 1000)]) :=
  c3_amended stInCall env0 (by decide) (by decide)

/-- C4 counterexample trace: one finalized mic utterance "hello", then an
explicit stop. -/
def c4Trace : List (InEvent × Env) :=
  [(InEvent.frame (Frame.msg (Msg.auth "user1" "password1")), env0),
   (InEvent.frame (Frame.msg Msg.agentStart), env0),
   (InEvent.dgMessage Source.mic (some ⟨some "hello", true⟩), env0),
   (InEvent.frame (Frame.msg Msg.agentStop), env0)]

/-- C4 counterexample: with exactly one finalized utterance "hello", the
text handed to the summarizer is the section-header template around the
utterances, not the bare ordered concatenation "hello" — it contains fixed
header and placeholder material — refuting "the transcript text passed to
the Summarizer Client equals the ordered concatenation of the finalized
utterances ... and no other material". -/
theorem c4_counterexample :
    geminiTexts (run conn0 c4Trace).2 =
      ["AGENT SPEECH:\nhello\n\nSYSTEM / TAB AUDIO:\nNo system audio detected."] ∧
    ¬ ("AGENT SPEECH:\nhello\n\nSYSTEM / TAB AUDIO:\nNo system audio detected."
        = "hello") := by decide

/-- C4 amended: only finalized utterances are persisted (an interim event
never changes the stores, a finalized nonempty one is appended in receipt
order), and the text handed to the summarizer is the fixed template
embedding the space-joined finalized utterances of each source (with
placeholder lines for empty sources), not their bare concatenation. -/
theorem c4_amended (st : Conn) (env : Env) (src : Source) (t : String) (fin : Bool) :
    (geminiTexts (step st (InEvent.frame (Frame.msg Msg.agentStop)) env).2 =
      if st.isAuthenticated = true ∧ st.callActive = true
      then [combinedTranscript st.transcripts.mic st.transcripts.tab] else []) ∧
    ((step st (InEvent.dgMessage src (some ⟨some t, fin⟩)) env).1.transcripts =
      if (dgOf st src).isSome = true ∧ ¬ t = "" ∧ fin = true
      then pushTranscript st.transcripts src t else st.transcripts) := by
  constructor
  · rw [step_msg, onMsg_agentStop]
    by_cases h : st.isAuthenticated = true
    · rw [if_pos h]
      by_cases h2 : st.callActive = true
      · rw [onAgentStop_pos st env.gemini h2, if_pos ⟨h, h2⟩]
        rcases st.dgMic with _ | d <;> rcases st.dgTab with _ | e <;> rfl
      · rw [onAgentStop_neg st env.gemini h2, if_neg (by tauto)]
        rfl
    · rw [if_neg h, if_neg (by tauto)]
      rfl
  · rw [step_dgMessage]
    unfold onDgMessage
    rcases hs : dgOf st src with _ | dg
    · rw [if_neg (by simp [hs])]
    · dsimp only
      by_cases ht : t = ""
      · rw [if_pos ht, if_neg (by tauto)]
      · rw [if_neg ht]
        cases fin
        · simp [ht]
        · simp [hs, ht]

/-- C5 counterexample trace: a call in which no utterance is ever finalized,
ended by an explicit stop; the provider answers with "AI summary line". -/
def c5Trace : List (InEvent × Env) :=
  [(InEvent.frame (Frame.msg (Msg.auth "user1" "password1")), env0),
   (InEvent.frame (Frame.msg Msg.agentStart), env0),
   (InEvent.frame (Frame.msg Msg.agentStop), env0)]

/-- Recognize the external summarization request among the effects. -/
def isGeminiRequest : Effect → Bool
  | Effect.geminiRequest _ => true
  | _ => false

/-- C5 counterexample: for a session with no finalized utterance, ending the
call still issues one external summarization request (the transcript handed
over is the never-empty header template), and the broadcast summary is the
provider's text, not the fixed "no conversation detected" summary — refuting
"ending the call yields the fixed no-conversation summary and the external
summarization service is not invoked at all". -/
theorem c5_counterexample :
    (run conn0 c5Trace).2.countP isGeminiRequest = 1 ∧
    summariesOf (run conn0 c5Trace).2 = ["AI summary line"] ∧
    ¬ ("AI summary line" = "No conversation detected.") := by decide

/-- C5 amended: summarizeWithGemini short-circuits to the fixed
"No conversation detected." result, without reaching the external service,
exactly on input that trims to empty — but the end-of-call transcript always
carries the fixed section headers, so it never trims to empty and ending any
call (even one with no finalized utterances) invokes the external service. -/
theorem c5_amended (micT tabT : List String) (o : GeminiOutcome) :
    summarizeWithGemini "" o = "No conversation detected." ∧
    geminiInvoked "" = false ∧
    geminiInvoked (combinedTranscript micT tabT) = true := by
  refine ⟨by simp [summarizeWithGemini, jsTrim, trimChars], by decide,
    geminiInvoked_combined micT tabT⟩

/-- C6 confirmed: the summarizer is a total function into displayable
strings (it cannot throw past its boundary in this embedding); on a
provider-reported error the result embeds the provider's error text, on a
transport failure it is the fixed generic fallback, and on a parsed
response it is the first truthy part text or the fixed missing-text
fallback. -/
theorem c6_summarizer_total (t m : String) (parts : List String) :
    (summarizeWithGemini t GeminiOutcome.transportFailure =
      if jsTrim t = "" then "No conversation detected."
      else "Summary generation failed.") ∧
    (summarizeWithGemini t (GeminiOutcome.providerError m) =
      if jsTrim t = "" then "No conversation detected."
      else "Gemini error: " ++ m) ∧
    (summarizeWithGemini t (GeminiOutcome.ok parts) =
      if jsTrim t = "" then "No conversation detected."
      else (findTextPart parts).getD "Summary text missing.") := by
  unfold summarizeWithGemini
  refine ⟨?_, ?_, ?_⟩ <;> split_ifs <;> rfl


/-- C7 counterexample prefix: authenticate, start, tag mic, mic socket
opens. -/
def c7Pre : List (InEvent × Env) :=
  [(InEvent.frame (Frame.msg (Msg.auth "user1" "password1")), env0),
   (InEvent.frame (Frame.msg Msg.agentStart), env0),
   (InEvent.frame (Frame.msg Msg.audioMic), env0),
   (InEvent.dgOpen Source.mic, env0)]

/-- C7 counterexample: a non-JSON text frame (the ASCII bytes of "hi",
[104, 105]) is indistinguishable from binary audio, and on an in-call
mic-tagged connection whose mic socket is OPEN it is forwarded downstream
to the transcription service — a side effect — refuting "the message is
silently ignored with no side effect". -/
theorem c7_counterexample :
    (step (run conn0 c7Pre).1 (InEvent.frame (Frame.binary [104, 105])) env0).2 =
      [Effect.dgSend Source.mic [104, 105]] ∧
    ¬ ((step (run conn0 c7Pre).1 (InEvent.frame (Frame.binary [104, 105])) env0).2
        = []) := by decide

/-- C7 amended: a malformed frame never terminates the connection, is never
answered or broadcast, and never changes the connection state; a JSON frame
with an unrecognized type is ignored completely, but a text frame that
fails JSON.parse falls into the binary branch, and when the connection is
in a call with the matching adapter OPEN it is forwarded downstream as
audio — its only possible effect — rather than ignored. -/
theorem c7_amended (st : Conn) (b : List Nat) (env : Env) :
    step st (InEvent.frame (Frame.msg Msg.other)) env = (st, []) ∧
    (step st (InEvent.frame (Frame.binary b)) env).1 = st ∧
    (∀ e ∈ (step st (InEvent.frame (Frame.binary b)) env).2,
      ∃ src, e = Effect.dgSend src b) := by
  refine ⟨?_, ?_, ?_⟩
  · rw [step_msg, onMsg_other]
  · rw [step_binary, onBinary_eq]
  · rw [step_binary, onBinary_eq]
    intro e he
    unfold binOut at he
    split_ifs at he
    · simp at he
      exact ⟨Source.mic, he⟩
    · simp at he
      exact ⟨Source.tab, he⟩
    · simp at he

/-- Witness for c7_amended at a concrete state and frame. -/
theorem c7_amended_witness :
    step conn0 (InEvent.frame (Frame.msg Msg.other)) env0 = (conn0, []) ∧
    (step conn0 (InEvent.frame (Frame.binary [7])) env0).1 = conn0 :=
  ⟨(c7_amended conn0 [7] env0).1, (c7_amended conn0 [7] env0).2.1⟩

/-- C8 confirmed: broadcast iterates the whole client list no matter what
happens at any single recipient: the deliveries to the clients before and
after any distinguished client c (in particular one whose send fails,
c.sendFails = true) are exactly the deliveries broadcast would make to
those clients alone, so one recipient's failure never aborts delivery to
the remaining open manager connections. -/
theorem c8_broadcast_isolated (pre post : List Client) (c : Client) (m : BEvent) :
    (broadcastRun (pre ++ c :: post) m).take pre.length = broadcastRun pre m ∧
    (broadcastRun (pre ++ c :: post) m).drop (pre.length + 1) = broadcastRun post m := by
  unfold broadcastRun
  constructor
  · rw [List.map_append, ← List.length_map pre
      (fun cl => if cl.readyState = RState.opened ∧ cl.role = some Role.manager
                 then some (serialize m, !cl.sendFails) else none),
      List.take_left]
  · rw [List.append_cons, List.map_append, List.map_append]
    have hl : (pre.map
        (fun cl => if cl.readyState = RState.opened ∧ cl.role = some Role.manager
                   then some (serialize m, !cl.sendFails) else none) ++
      [c].map
        (fun cl => if cl.readyState = RState.opened ∧ cl.role = some Role.manager
                   then some (serialize m, !cl.sendFails) else none)).length
        = pre.length + 1 := by
      simp
    rw [← hl]
    exact List.drop_left _ _

/-- C9 counterexample trace: authenticate as an agent, start a call, then
re-authenticate as the manager account while the call is still active. -/
def c9Trace : List (InEvent × Env) :=
  [(InEvent.frame (Frame.msg (Msg.auth "user1" "password1")), env0),
   (InEvent.frame (Frame.msg Msg.agentStart), env0),
   (InEvent.frame (Frame.msg (Msg.auth "manager" "manager123")), env0)]

/-- C9 counterexample: the auth branch is reachable at any time, so a
connection can re-authenticate as a manager while its call is active:
afterwards callActive is true yet the role is "manager" (and its binary
frames would still be forwarded, since the binary branch checks only
callActive) — refuting "whenever a connection's call-active flag is true,
that connection is authenticated with role agent". -/
theorem c9_counterexample :
    (run conn0 c9Trace).1.callActive = true ∧
    (run conn0 c9Trace).1.role = some Role.manager := by decide

/-- C9 amended: the weaker invariant that does hold: callActive implies the
connection is authenticated (isAuthenticated, once set, is never cleared,
and agent_start is only reachable behind the authentication gate); every
handler step preserves it.  The role part of the claim is false: a mid-call
re-authentication can change the role away from agent. -/
theorem c9_amended (st : Conn) (ev : InEvent) (env : Env)
    (h : st.callActive = true → st.isAuthenticated = true) :
    (step st ev env).1.callActive = true → (step st ev env).1.isAuthenticated = true := by
  cases ev with
  | frame f =>
    cases f with
    | binary b =>
      rw [step_binary, onBinary_eq]
      exact h
    | msg m =>
      cases m with
      | auth u p =>
        rw [step_msg, onMsg_auth]
        unfold onAuth
        cases hu : USERS u with
        | none => exact h
        | some pr =>
          obtain ⟨pw, r⟩ := pr
          dsimp only
          by_cases hp : pw ≠ p
          · rw [if_pos hp]
            exact h
          · rw [if_neg hp]
            intro _
            rfl
      | agentStart =>
        rw [step_msg, onMsg_agentStart]
        by_cases ha : st.isAuthenticated = true
        · rw [if_pos ha]
          by_cases hr : st.role = some Role.agent
          · rw [onAgentStart_pos st env.now hr]
            intro _
            exact ha
          · rw [onAgentStart_neg st env.now hr]
            exact h
        · rw [if_neg ha]
          exact h
      | agentStop =>
        rw [step_msg, onMsg_agentStop]
        by_cases ha : st.isAuthenticated = true
        · rw [if_pos ha]
          by_cases hc : st.callActive = true
          · rw [onAgentStop_pos st env.gemini hc]
            intro _
            exact ha
          · rw [onAgentStop_neg st env.gemini hc]
            exact h
        · rw [if_neg ha]
          exact h
      | audioMic =>
        rw [step_msg, onMsg_audioMic]
        split
        · exact h
        · exact h
      | audioTab =>
        rw [step_msg, onMsg_audioTab]
        split
        · exact h
        · exact h
      | other =>
        rw [step_msg, onMsg_other]
        exact h
  | dgOpen src =>
    rw [step_dgOpen]
    unfold onDgOpen
    cases src
    · rcases st.dgMic with _ | d
      · exact h
      · exact h
    · rcases st.dgTab with _ | d
      · exact h
      · exact h
  | dgMessage src d =>
    rw [step_dgMessage]
    unfold onDgMessage
    rcases hs : dgOf st src with _ | dg
    · exact h
    · rcases d with _ | ev'
      · exact h
      · obtain ⟨topt, fin⟩ := ev'
        rcases topt with _ | t
        · exact h
        · dsimp only
          by_cases ht : t = ""
          · rw [if_pos ht]
            exact h
          · rw [if_neg ht]
            cases fin
            · exact h
            · exact h
  | close =>
    rw [step_close]
    unfold onClose
    split
    · exact h
    · exact h

/-- Witness for c9_amended: at the concrete in-call state, after one more
audio-tag event the connection is still authenticated. -/
theorem c9_amended_witness :
    (step stInCall (InEvent.frame (Frame.msg Msg.audioMic)) env0).1.isAuthenticated = true :=
  c9_amended stInCall (InEvent.frame (Frame.msg Msg.audioMic)) env0
    (by decide) (by decide)

/-- C10 confirmed: a broadcast delivers the once-serialized event to
position i exactly when the client there is OPEN and has role "manager";
every other client — agents included, in particular the agent whose call
produced the event — receives nothing, and every recipient receives the
same single serialization of the event. -/
theorem c10_broadcast_targets (clients : List Client) (m : BEvent) (i : Nat)
    (c : Client) (h : clients[i]? = some c) :
    (broadcastRun clients m)[i]? =
      some (if c.readyState = RState.opened ∧ c.role = some Role.manager
            then some (serialize m, !c.sendFails) else none) := by
  unfold broadcastRun
  rw [List.getElem?_map, h]
  rfl

/-- A two-client hub: one open agent, one open manager whose send fails. -/
def clientsW : List Client :=
  [⟨RState.opened, some Role.agent, false⟩,
   ⟨RState.opened, some Role.manager, true⟩]

/-- Witness for c10_broadcast_targets: the agent at position 0 receives
nothing and the manager at position 1 receives the serialized event. -/
theorem c10_broadcast_targets_witness :
    (broadcastRun clientsW (BEvent.agentOnline (some "user1")))[0]? = some none ∧
    (broadcastRun clientsW (BEvent.agentOnline (some "user1")))[1]? =
      some (some (serialize (BEvent.agentOnline (some "user1")), false)) := by
  constructor
  · have h := c10_broadcast_targets clientsW (BEvent.agentOnline (some "user1")) 0
      ⟨RState.opened, some Role.agent, false⟩ (by decide)
    simpa using h
  · have h := c10_broadcast_targets clientsW (BEvent.agentOnline (some "user1")) 1
      ⟨RState.opened, some Role.manager, true⟩ (by decide)
    simpa using h

end FlashRev
